import Mathlib

/-!
Verification development for the data-model layer of `app/models.py` in the
resource-grabber repository.

Embedding conventions: Python `int` (unbounded) is embedded as `Int`;
`datetime` values are embedded as abstract `Nat` ticks (their arithmetic is
never used by the model); SQL string columns are embedded as `String`, with
the `max_length` bounds the source declares checked explicitly where an insert
or a validator checks them.  Optional columns are `Option`.  `float` columns
are carried as `Option Float` but never computed with.
-/

/-- Enumeration of web resource types (`ResourceType` in `app/models.py`),
each member carrying the string value the source gives it. -/
inductive ResourceType
  | json
  | javascript
  | xml
  | yaml
  | css
  | image
  | html
  | text
  | pdf
  | other
  deriving DecidableEq, Fintype

/-- The string value of each `ResourceType` member, as written in the source. -/
def ResourceType.value : ResourceType → String
  | .json => "json"
  | .javascript => "js"
  | .xml => "xml"
  | .yaml => "yml"
  | .css => "css"
  | .image => "image"
  | .html => "html"
  | .text => "txt"
  | .pdf => "pdf"
  | .other => "other"

/-- Status of the URL scanning process (`ScanStatus` in `app/models.py`). -/
inductive ScanStatus
  | pending
  | in_progress
  | completed
  | failed
  deriving DecidableEq, Fintype

/-- The string value of each `ScanStatus` member, as written in the source. -/
def ScanStatus.value : ScanStatus → String
  | .pending => "pending"
  | .in_progress => "in_progress"
  | .completed => "completed"
  | .failed => "failed"

/-- Position of a status in the lifecycle order
`pending (0) → in_progress (1) → completed / failed (2)`. -/
def ScanStatus.rank : ScanStatus → Nat
  | .pending => 0
  | .in_progress => 1
  | .completed => 2
  | .failed => 2

/-- Modelled from the spec: the `ScanSession` state machine
`pending → in_progress → (completed | failed)`; terminal states have no
outgoing transition.  The source supplies only the `ScanStatus` enum, not the
orchestrator that drives it. -/
def scanStatusStep : ScanStatus → ScanStatus → Bool
  | .pending, .in_progress => true
  | .in_progress, .completed => true
  | .in_progress, .failed => true
  | _, _ => false

/-- A URL scanning session with authentication details
(`ScanSession` in `app/models.py`, table `scan_sessions`).
Fields with `:=` carry the default the source declares; `created_at` has a
`default_factory` in the source and is therefore supplied by the creator. -/
structure ScanSession where
  id : Option Int := none
  target_url : String
  status : ScanStatus := ScanStatus.pending
  username : Option String := none
  password : Option String := none
  auth_token : Option String := none
  payload : Option String := none
  created_at : Nat
  completed_at : Option Nat := none
  error_message : Option String := none
  total_resources_found : Int := 0
  scan_duration_seconds : Option Float := none

/-- A discovered web resource (`WebResource` in `app/models.py`, table
`web_resources`).  `scan_session_id` is a non-nullable foreign key into
`scan_sessions.id`; `discovered_at` has a `default_factory` in the source. -/
structure WebResource where
  id : Option Int := none
  scan_session_id : Int
  url : String
  relative_path : String
  resource_type : ResourceType
  file_extension : String
  content_type : Option String := none
  file_size_bytes : Option Int := none
  last_modified : Option Nat := none
  is_downloadable : Bool := true
  download_attempts : Int := 0
  last_download_at : Option Nat := none
  discovered_at : Nat
  source_element : Option String := none
  deriving DecidableEq

/-- One download-history row (`DownloadHistory` in `app/models.py`, table
`download_history`).  `resource_id` is a foreign key into `web_resources.id`;
`downloaded_at` has a `default_factory` in the source. -/
structure DownloadHistory where
  id : Option Int := none
  resource_id : Int
  downloaded_at : Nat
  file_size_bytes : Option Int := none
  download_duration_seconds : Option Float := none
  success : Bool := true
  error_message : Option String := none
  client_ip : Option String := none
  user_agent : Option String := none

/-- Schema for initiating a new URL scan (`ScanRequest` in `app/models.py`,
`table=False`, so pydantic validation runs on construction). -/
structure ScanRequest where
  target_url : String
  username : Option String := none
  password : Option String := none
  auth_token : Option String := none
  payload : Option String := none

/-- Python `re` whitespace class `\s` on `str` (ASCII whitespace plus the
Unicode whitespace code points recognised by CPython's `re` module). -/
def isPySpace (c : Char) : Bool :=
  c = ' ' || c = '\t' || c = '\n' || c = '\r' || c = '\x0b' || c = '\x0c'
  || c = '\x1c' || c = '\x1d' || c = '\x1e' || c = '\x1f'
  || c = '\x85' || c = '\xa0' || c = '\u1680'
  || ('\u2000' ≤ c && c ≤ '\u200a')
  || c = '\u2028' || c = '\u2029' || c = '\u202f' || c = '\u205f' || c = '\u3000'

/-- The character class `[^\s/$.?#]` of the `target_url` pattern: the first
character after the scheme separator may not be whitespace, `/`, `$`, `.`,
`?` or `#`. -/
def forbiddenFirstHostChar (c : Char) : Bool :=
  isPySpace c || c = '/' || c = '$' || c = '.' || c = '?' || c = '#'

/-- The `^https?://` part of the `target_url` pattern: strips the scheme,
returning the remainder, or `none` when the string starts with neither
`http://` nor `https://`. -/
def stripScheme (l : List Char) : Option (List Char) :=
  if l.take 8 = "https://".data then some (l.drop 8)
  else if l.take 7 = "http://".data then some (l.drop 7)
  else none

/-- Python's `$` matches at the end of the string or just before a single
trailing newline, so a match may ignore one final `'\n'`. -/
def dropTrailingNewline (l : List Char) : List Char :=
  match l.getLast? with
  | some c => if c = '\n' then l.dropLast else l
  | none => l

/-- A full match of the pattern `^https?://[^\s/$.?#].[^\s]*$` declared on
`ScanRequest.target_url` in `app/models.py`, under Python `re` semantics:
after the scheme come one character outside `[\s/$.?#]`, one character other
than `'\n'` (the `.`), and a tail of non-whitespace characters, with `$`
allowed to stop before one trailing newline. -/
def matchesTargetUrlRegex (s : String) : Bool :=
  match stripScheme s.data with
  | none => false
  | some t =>
    match dropTrailingNewline t with
    | c1 :: c2 :: rest =>
        !forbiddenFirstHostChar c1 && !(c2 = '\n') && rest.all (fun c => !isPySpace c)
    | _ => false

/-- An optional string column satisfies its declared `max_length` bound. -/
def optLenLe (s : Option String) (n : Nat) : Bool :=
  match s with
  | none => true
  | some v => decide (v.length ≤ n)

/-- Pydantic validation of a `ScanRequest` as declared in `app/models.py`:
`target_url` must match the regex and respect `max_length=2048`, and the
optional credential / payload fields must respect their `max_length` bounds. -/
def scanRequestValid (r : ScanRequest) : Bool :=
  matchesTargetUrlRegex r.target_url
  && decide (r.target_url.length ≤ 2048)
  && optLenLe r.username 255
  && optLenLe r.password 255
  && optLenLe r.auth_token 1024
  && optLenLe r.payload 10000

/-- Modelled from the spec: the error category raised at the request-intake
boundary; the inbound request layer itself is not part of the supplied
source. -/
inductive ValidationError
  | invalidRequest
  deriving DecidableEq

/-- Constructing a `ScanSession` with only its required fields, mirroring
`ScanSession(target_url=...)` in Python: every field with a declared default
takes that default; `now` stands for the `datetime.utcnow` default factory. -/
def ScanSession.new (target_url : String) (now : Nat) : ScanSession :=
  { target_url := target_url, created_at := now }

/-- Modelled from the spec: the inbound request layer validates the
`ScanRequest` and only then creates a `ScanSession` (status defaulting to
pending); a request that fails validation is rejected with a
`ValidationError` before any session exists.  This layer is not part of the
supplied source; the validation rules themselves come from the field
declarations on `ScanRequest`. -/
def intakeScanRequest (r : ScanRequest) (now : Nat) : Except ValidationError ScanSession :=
  if scanRequestValid r then
    Except.ok { target_url := r.target_url, username := r.username,
                password := r.password, auth_token := r.auth_token,
                payload := r.payload, created_at := now }
  else
    Except.error ValidationError.invalidRequest

/-- Constructing a `WebResource` with only its required fields, mirroring
`WebResource(scan_session_id=..., url=..., relative_path=...,
resource_type=..., file_extension=...)` in Python; `now` stands for the
`datetime.utcnow` default factory of `discovered_at`. -/
def WebResource.new (scan_session_id : Int) (url relative_path : String)
    (resource_type : ResourceType) (file_extension : String) (now : Nat) : WebResource :=
  { scan_session_id := scan_session_id, url := url, relative_path := relative_path,
    resource_type := resource_type, file_extension := file_extension,
    discovered_at := now }

/-- Constructing a `DownloadHistory` row with only its required fields,
mirroring `DownloadHistory(resource_id=...)` in Python; `now` stands for the
`datetime.utcnow` default factory of `downloaded_at`. -/
def DownloadHistory.new (resource_id : Int) (now : Nat) : DownloadHistory :=
  { resource_id := resource_id, downloaded_at := now }

/-- The `max_length` bound declared on `ScanSession.error_message`. -/
def scanSessionErrorMessageMax : Nat := 1000

/-- The `max_length` bound declared on `DownloadHistory.error_message`. -/
def downloadHistoryErrorMessageMax : Nat := 500

/-- Truncating a string to at most `n` characters. -/
def truncateTo (n : Nat) (s : String) : String :=
  String.mk (s.data.take n)

/-- Modelled from the spec: the orchestrator records a session-level fatal
error, setting status to failed and a human-readable error message truncated
to the field's size bound; no orchestrator code is part of the supplied
source, only the column bound (`max_length=1000`) is. -/
def ScanSession.recordFailure (s : ScanSession) (msg : String) (now : Nat) : ScanSession :=
  { s with status := ScanStatus.failed,
           error_message := some (truncateTo scanSessionErrorMessageMax msg),
           completed_at := some now }

/-- Modelled from the spec: the Download Manager records one download attempt
as a `DownloadHistory` row, truncating any error message to the field's size
bound; no Download Manager code is part of the supplied source, only the
column bound (`max_length=500`) is. -/
def DownloadHistory.record (resource_id : Int) (now : Nat) (ok : Bool)
    (msg : Option String) (client_ip user_agent : Option String) : DownloadHistory :=
  { resource_id := resource_id, downloaded_at := now, success := ok,
    error_message := msg.map (truncateTo downloadHistoryErrorMessageMax),
    client_ip := client_ip, user_agent := user_agent }

/-- Modelled from the spec: a guarded status transition of a `ScanSession`
along the state machine; a transition not allowed by `scanStatusStep`
(in particular any transition out of a terminal state) is refused. -/
def ScanSession.transition (s : ScanSession) (t : ScanStatus) : Option ScanSession :=
  if scanStatusStep s.status t then some { s with status := t } else none

/-- The stored state of the two related tables `scan_sessions` and
`web_resources`. -/
structure Db where
  scan_sessions : List ScanSession := []
  web_resources : List WebResource := []

/-- The column bounds the `web_resources` table declares:
`url` 2048, `relative_path` 1024, `file_extension` 10, `content_type` 100,
`source_element` 50. -/
def webResourceColumnsOk (r : WebResource) : Bool :=
  decide (r.url.length ≤ 2048)
  && decide (r.relative_path.length ≤ 1024)
  && decide (r.file_extension.length ≤ 10)
  && optLenLe r.content_type 100
  && optLenLe r.source_element 50

/-- Inserting a `WebResource` row under exactly the constraints the table in
`app/models.py` declares: the column bounds, uniqueness of the primary key
`id` (rows are inserted with their key assigned), and the foreign key
`scan_session_id → scan_sessions.id`.  The source declares no unique
constraint on `(scan_session_id, url)` (no `UniqueConstraint`, no
`unique=True`, no `__table_args__`), so no such check appears here. -/
def insertWebResource (db : Db) (r : WebResource) : Option Db :=
  if webResourceColumnsOk r
      && r.id.isSome
      && db.web_resources.all (fun x => decide (x.id ≠ r.id))
      && db.scan_sessions.any (fun s => decide (s.id = some r.scan_session_id))
  then some { db with web_resources := db.web_resources ++ [r] }
  else none

/-- Deleting a `ScanSession` row.  The source declares neither
`cascade_delete` on the `resources` relationship nor an `ondelete` action on
the `web_resources.scan_session_id` foreign key, so deleting a session row
removes only that row and leaves the `web_resources` table untouched. -/
def deleteScanSession (db : Db) (sid : Int) : Db :=
  { db with scan_sessions := db.scan_sessions.filter (fun s => !decide (s.id = some sid)) }

/-- A concrete stored session used by the concrete-state theorems. -/
def sessCX : ScanSession :=
  { id := some 1, target_url := "https://example.com", created_at := 0 }

/-- A concrete session already in a terminal state. -/
def sessDoneCX : ScanSession :=
  { id := some 2, target_url := "https://example.com", status := ScanStatus.completed,
    created_at := 0 }

/-- A concrete stored resource of session 1. -/
def r1CX : WebResource :=
  { id := some 1, scan_session_id := 1, url := "https://example.com/a.png",
    relative_path := "/a.png", resource_type := ResourceType.image,
    file_extension := "png", discovered_at := 0 }

/-- A second resource with the same `(scan_session_id, url)` pair as `r1CX`
but a fresh primary key. -/
def r2CX : WebResource :=
  { r1CX with id := some 2, discovered_at := 1 }

/-- A concrete database state: one session, one discovered resource. -/
def dbCX : Db :=
  { scan_sessions := [sessCX], web_resources := [r1CX] }

/-- A concrete valid scan request. -/
def reqOkCX : ScanRequest :=
  { target_url := "https://example.com" }

/-- Claim C6: `resource_type` is drawn from a closed enumeration with exactly
the ten members json, js, xml, yml, css, image, html, txt, pdf, other; every
`WebResource`'s `resource_type` equals one of these values and no other value
is representable. -/
theorem resourceType_closed_ten_members :
    (∀ r : WebResource,
        r.resource_type = ResourceType.json ∨ r.resource_type = ResourceType.javascript
      ∨ r.resource_type = ResourceType.xml ∨ r.resource_type = ResourceType.yaml
      ∨ r.resource_type = ResourceType.css ∨ r.resource_type = ResourceType.image
      ∨ r.resource_type = ResourceType.html ∨ r.resource_type = ResourceType.text
      ∨ r.resource_type = ResourceType.pdf ∨ r.resource_type = ResourceType.other)
  ∧ Fintype.card ResourceType = 10
  ∧ (∀ t : ResourceType,
      t.value ∈ (["json", "js", "xml", "yml", "css", "image", "html", "txt",
                  "pdf", "other"] : List String)) := by
  refine ⟨fun r => ?_, by decide, by decide⟩
  exact (show ∀ t : ResourceType,
      t = ResourceType.json ∨ t = ResourceType.javascript
    ∨ t = ResourceType.xml ∨ t = ResourceType.yaml
    ∨ t = ResourceType.css ∨ t = ResourceType.image
    ∨ t = ResourceType.html ∨ t = ResourceType.text
    ∨ t = ResourceType.pdf ∨ t = ResourceType.other by decide) r.resource_type

/-- Claim C7: a `ScanSession` created at scan request time, without an
explicit status argument, has status `pending` — both for the bare
constructor with the source's field default and for a session produced by the
(spec-modelled) request intake. -/
theorem scanSession_created_pending :
    (∀ (url : String) (now : Nat), (ScanSession.new url now).status = ScanStatus.pending)
  ∧ (∀ (r : ScanRequest) (now : Nat) (sess : ScanSession),
        intakeScanRequest r now = Except.ok sess → sess.status = ScanStatus.pending) := by
  constructor
  · intro url now
    rfl
  · intro r now sess h
    unfold intakeScanRequest at h
    split at h
    · injection h with h2
      rw [← h2]
    · exact Except.noConfusion h

/-- Claim C7 witness: the intake applied to a concrete valid request yields a
session whose status is `pending`. -/
theorem scanSession_created_pending_witness :
    (ScanSession.new "https://example.com" 0).status = ScanStatus.pending :=
  scanSession_created_pending.2 reqOkCX 0 (ScanSession.new "https://example.com" 0) rfl

/-- Claim C8: a freshly constructed `WebResource`, before any download is
attempted, has `download_attempts = 0`, `last_download_at = none` and
`is_downloadable = true` by default. -/
theorem webResource_new_defaults (sid : Int) (url rp : String) (t : ResourceType)
    (ext : String) (now : Nat) :
    (WebResource.new sid url rp t ext now).download_attempts = 0
  ∧ (WebResource.new sid url rp t ext now).last_download_at = none
  ∧ (WebResource.new sid url rp t ext now).is_downloadable = true :=
  ⟨rfl, rfl, rfl⟩

/-- Claim C9: a `DownloadHistory` entry constructed without an explicit
`success` argument records `success = true`. -/
theorem downloadHistory_new_success_default (rid : Int) (now : Nat) :
    (DownloadHistory.new rid now).success = true :=
  rfl

/-- Claim C10: there is a string beginning with `http://` that the
`target_url` pattern rejects: `http://a` (a single character after the scheme
separator) fails the regex, fails request validation, and is refused by the
intake. -/
theorem targetUrl_regex_rejects_single_char_host :
    "http://a".data.take 7 = "http://".data
  ∧ matchesTargetUrlRegex "http://a" = false
  ∧ scanRequestValid { target_url := "http://a" } = false
  ∧ intakeScanRequest { target_url := "http://a" } 0
      = Except.error ValidationError.invalidRequest :=
  ⟨rfl, rfl, rfl, rfl⟩

/-- The length of a truncated string is at most the truncation bound. -/
theorem truncateTo_length_le (n : Nat) (s : String) : (truncateTo n s).length ≤ n := by
  show (s.data.take n).length ≤ n
  rw [List.length_take]
  exact Nat.min_le_left n s.data.length

/-- Claim C3: every status is one of pending, in_progress, completed, failed;
the (spec-modelled) state machine only moves forward along
`pending → in_progress → (completed | failed)`; and a session in a terminal
state admits no further transition. -/
theorem scanStatus_state_machine :
    (∀ s : ScanStatus,
        s = ScanStatus.pending ∨ s = ScanStatus.in_progress
      ∨ s = ScanStatus.completed ∨ s = ScanStatus.failed)
  ∧ (∀ s t : ScanStatus, scanStatusStep s t = true → s.rank < t.rank)
  ∧ (∀ (sess : ScanSession) (t : ScanStatus),
        sess.status = ScanStatus.completed ∨ sess.status = ScanStatus.failed →
        sess.transition t = none) := by
  refine ⟨by decide, by decide, ?_⟩
  intro sess t ht
  have hstep : scanStatusStep sess.status t = false := by
    rcases ht with h | h <;> rw [h] <;> cases t <;> rfl
  simp [ScanSession.transition, hstep]

/-- Claim C3 witness: the first legal transition strictly increases the rank,
and a concrete completed session refuses a transition back to pending. -/
theorem scanStatus_state_machine_witness :
    ScanStatus.rank ScanStatus.pending < ScanStatus.rank ScanStatus.in_progress
  ∧ sessDoneCX.transition ScanStatus.pending = none :=
  ⟨scanStatus_state_machine.2.1 ScanStatus.pending ScanStatus.in_progress rfl,
   scanStatus_state_machine.2.2 sessDoneCX ScanStatus.pending (Or.inl rfl)⟩

/-- Claim C5: persisted error messages are truncated to their field's size
bound — at most 1000 characters on a `ScanSession` written by the
(spec-modelled) failure recorder and at most 500 characters on a
`DownloadHistory` row written by the (spec-modelled) download recorder, even
when the supplied message is longer. -/
theorem error_messages_truncated_to_bound :
    (∀ (s : ScanSession) (msg : String) (now : Nat),
        ((s.recordFailure msg now).error_message.getD "").length ≤ 1000)
  ∧ (∀ (rid : Int) (now : Nat) (ok : Bool) (msg : Option String) (ip ua : Option String),
        ((DownloadHistory.record rid now ok msg ip ua).error_message.getD "").length ≤ 500) := by
  constructor
  · intro s msg now
    exact truncateTo_length_le scanSessionErrorMessageMax msg
  · intro rid now ok msg ip ua
    cases msg with
    | none => exact Nat.zero_le 500
    | some m => exact truncateTo_length_le downloadHistoryErrorMessageMax m

/-- Claim C1 counterexample: the `web_resources` table declares no uniqueness
constraint on `(scan_session_id, url)`, so inserting a second resource with
the same session id and url as an existing row succeeds instead of failing:
with `r1CX` already stored for session 1, inserting `r2CX` — same session id,
same url, fresh primary key — yields a database holding both rows. -/
theorem insertWebResource_duplicate_pair_succeeds :
    r2CX.scan_session_id = r1CX.scan_session_id
  ∧ r2CX.url = r1CX.url
  ∧ dbCX.web_resources = [r1CX]
  ∧ insertWebResource dbCX r2CX
      = some { scan_sessions := [sessCX], web_resources := [r1CX, r2CX] } :=
  ⟨rfl, rfl, rfl, rfl⟩

/-- Claim C1 (amended): the `web_resources` table enforces only its declared
constraints — column bounds, primary-key freshness and the session foreign
key; it declares no uniqueness of `(scan_session_id, url)`, so an insert
meeting the declared constraints succeeds even when an existing row already
carries the same `(scan_session_id, url)` pair, creating a duplicate. -/
theorem insertWebResource_no_pair_uniqueness (db : Db) (r : WebResource)
    (hcols : webResourceColumnsOk r = true)
    (hid : r.id.isSome = true)
    (hfresh : db.web_resources.all (fun x => decide (x.id ≠ r.id)) = true)
    (hfk : db.scan_sessions.any (fun s => decide (s.id = some r.scan_session_id)) = true) :
    insertWebResource db r = some { db with web_resources := db.web_resources ++ [r] } := by
  unfold insertWebResource
  rw [hcols, hid, hfresh, hfk]
  rfl

/-- Claim C1 (amended) witness: the insert of the duplicated pair goes
through on the concrete database. -/
theorem insertWebResource_no_pair_uniqueness_witness :
    insertWebResource dbCX r2CX
      = some { dbCX with web_resources := dbCX.web_resources ++ [r2CX] } :=
  insertWebResource_no_pair_uniqueness dbCX r2CX rfl rfl rfl rfl

/-- Claim C4 counterexample: the source declares neither `cascade_delete` on
the relationship nor an `ondelete` action on the foreign key, so deleting
session 1 removes only the session row: its resource `r1CX`
(`scan_session_id = 1`) is still stored afterwards, contradicting the claimed
cascade. -/
theorem deleteScanSession_no_cascade :
    r1CX.scan_session_id = 1
  ∧ sessCX.id = some 1
  ∧ dbCX.scan_sessions = [sessCX]
  ∧ deleteScanSession dbCX 1 = { scan_sessions := [], web_resources := [r1CX] } :=
  ⟨rfl, rfl, rfl, rfl⟩

/-- Claim C4 (amended): every `WebResource` references exactly one
`ScanSession` through its single non-nullable `scan_session_id` foreign key
(under foreign-key integrity and uniqueness of session rows per id), but
deleting a `ScanSession` does not cascade: it removes exactly the session
rows with that id and leaves the `web_resources` table unchanged, that
session's rows included. -/
theorem deleteScanSession_leaves_resources (db : Db) (sid : Int)
    (hfk : ∀ r ∈ db.web_resources, ∃ s ∈ db.scan_sessions, s.id = some r.scan_session_id)
    (hids : ∀ s1 ∈ db.scan_sessions, ∀ s2 ∈ db.scan_sessions, s1.id = s2.id → s1 = s2) :
    (deleteScanSession db sid).web_resources = db.web_resources
  ∧ (∀ s ∈ (deleteScanSession db sid).scan_sessions, s.id ≠ some sid)
  ∧ (∀ r ∈ db.web_resources,
        ∃! s, s ∈ db.scan_sessions ∧ s.id = some r.scan_session_id) := by
  refine ⟨rfl, ?_, ?_⟩
  · intro s hs
    unfold deleteScanSession at hs
    simp only [List.mem_filter, Bool.not_eq_eq_eq_not, Bool.not_true, decide_eq_false_iff_not] at hs
    exact hs.2
  · intro r hr
    obtain ⟨s, hsmem, hsid⟩ := hfk r hr
    exact ⟨s, ⟨hsmem, hsid⟩, fun y hy => hids y hy.1 s hsmem (hy.2.trans hsid.symm)⟩

/-- Claim C4 (amended) witness: on the concrete database, deleting session 1
leaves the resource table unchanged, removes every session row with id 1, and
each stored resource references exactly one stored session. -/
theorem deleteScanSession_leaves_resources_witness :
    (deleteScanSession dbCX 1).web_resources = dbCX.web_resources
  ∧ (∀ s ∈ (deleteScanSession dbCX 1).scan_sessions, s.id ≠ some 1)
  ∧ (∀ r ∈ dbCX.web_resources,
        ∃! s, s ∈ dbCX.scan_sessions ∧ s.id = some r.scan_session_id) :=
  deleteScanSession_leaves_resources dbCX 1
    (fun r hr => ⟨sessCX, List.mem_singleton.mpr rfl, by rw [List.mem_singleton.mp hr]; rfl⟩)
    (fun s1 h1 s2 h2 _ => by rw [List.mem_singleton.mp h1, List.mem_singleton.mp h2])

/-- A validated `ScanRequest` has a `target_url` matching the declared
regex (the regex is the first conjunct of the validator). -/
theorem scanRequestValid_regex (r : ScanRequest) (h : scanRequestValid r = true) :
    matchesTargetUrlRegex r.target_url = true := by
  unfold scanRequestValid at h
  cases hm : matchesTargetUrlRegex r.target_url with
  | true => rfl
  | false => rw [hm] at h; simp at h

/-- A string matching the `target_url` pattern begins with `http://` or
`https://`. -/
theorem matchesTargetUrlRegex_scheme (s : String)
    (h : matchesTargetUrlRegex s = true) :
    s.data.take 7 = "http://".data ∨ s.data.take 8 = "https://".data := by
  by_cases h8 : s.data.take 8 = "https://".data
  · exact Or.inr h8
  · by_cases h7 : s.data.take 7 = "http://".data
    · exact Or.inl h7
    · exfalso
      have hs : stripScheme s.data = none := by
        unfold stripScheme
        rw [if_neg h8, if_neg h7]
      unfold matchesTargetUrlRegex at h
      rw [hs] at h
      exact Bool.noConfusion h

/-- Claim C2: every `target_url` the request intake accepts matches the
declared pattern `^https?://[^\s/$.?#].[^\s]*$` — in particular it begins
with `http://` or `https://` — and a request whose `target_url` does not
match is rejected with a `ValidationError`, so no `ScanSession` is created
for it. -/
theorem scanRequest_targetUrl_validated (r : ScanRequest) (now : Nat) :
    (∀ sess : ScanSession, intakeScanRequest r now = Except.ok sess →
        matchesTargetUrlRegex r.target_url = true
      ∧ (r.target_url.data.take 7 = "http://".data
         ∨ r.target_url.data.take 8 = "https://".data))
  ∧ (matchesTargetUrlRegex r.target_url = false →
        intakeScanRequest r now = Except.error ValidationError.invalidRequest) := by
  constructor
  · intro sess h
    unfold intakeScanRequest at h
    split at h
    case isTrue hv =>
      have hm : matchesTargetUrlRegex r.target_url = true := scanRequestValid_regex r hv
      exact ⟨hm, matchesTargetUrlRegex_scheme r.target_url hm⟩
    case isFalse hv =>
      exact Except.noConfusion h
  · intro hm
    have hv : scanRequestValid r = false := by
      unfold scanRequestValid
      rw [hm]
      simp
    simp [intakeScanRequest, hv]

/-- Claim C2 witness: a concrete valid request is accepted and its url begins
with a scheme; a concrete request whose url fails the pattern is rejected
with a `ValidationError`. -/
theorem scanRequest_targetUrl_validated_witness :
    (matchesTargetUrlRegex "https://example.com" = true
      ∧ ("https://example.com".data.take 7 = "http://".data
         ∨ "https://example.com".data.take 8 = "https://".data))
  ∧ intakeScanRequest { target_url := "ftp://host/file" } 0
      = Except.error ValidationError.invalidRequest :=
  ⟨(scanRequest_targetUrl_validated reqOkCX 0).1 (ScanSession.new "https://example.com" 0) rfl,
   (scanRequest_targetUrl_validated { target_url := "ftp://host/file" } 0).2 rfl⟩
